import Mathlib

/-!
# Shallow embedding of `src/src/API/User/User.ts` (twurple)

The repository ships a single source file: the `User` entity facade.
Its collaborators (`TwitchClient` and its resource managers,
`ChannelPlaceholder`, the error classes `NoSubscriptionProgram`,
`NotSubscribed`, `NotFollowing`) are referenced but not part of `src/`;
they are modelled abstractly below (functions held in a record, a closed
error variant type), following the spec where the code is missing.

TypeScript `async` methods that may `throw` are embedded as functions
returning `Except ApiError α`; `try/catch` becomes a `match` on that
result; `instanceof` checks against the imported error classes become
matches on the variant tag.
-/

namespace Twurple

/-- The error kinds raised by the remote API client.
`NoSubscriptionProgram`, `NotSubscribed` and `NotFollowing` are the error
classes imported by `User.ts`; `transport` stands for every other error
kind the collaborator can raise (e.g. a transport timeout), carrying a
message so that distinct "other" errors are distinguishable. -/
inductive ApiError where
  | NoSubscriptionProgram : ApiError
  | NotSubscribed : ApiError
  | NotFollowing : ApiError
  | transport : String → ApiError
deriving DecidableEq, Repr

/-- The backing record of a `User`, from the `UserData` interface
(`User.ts` lines 14–23). All fields are strings, kept verbatim. -/
structure UserData where
  _id : String
  bio : String
  created_at : String
  name : String
  display_name : String
  logo : String
  type : String
  updated_at : String
deriving DecidableEq, Repr

/-- Opaque channel record returned by the client (not in `src/`). -/
structure Channel where
  data : String
deriving DecidableEq, Repr

/-- Opaque stream record returned by the client (not in `src/`). -/
structure Stream where
  data : String
deriving DecidableEq, Repr

/-- Opaque subscription record returned by the client (not in `src/`). -/
structure UserSubscription where
  data : String
deriving DecidableEq, Repr

/-- Opaque follow record returned by the client (not in `src/`). -/
structure UserFollow where
  data : String
deriving DecidableEq, Repr

/-- The `orderBy` values accepted by `getFollows`
(`User.ts` line 140: a union of the three string literals). -/
inductive OrderBy where
  | created_at : OrderBy
  | last_broadcast : OrderBy
  | login : OrderBy
deriving DecidableEq, Repr

/-- The `orderDirection` values accepted by `getFollows`
(`User.ts` line 140: ascending or descending). -/
inductive OrderDirection where
  | asc : OrderDirection
  | desc : OrderDirection
deriving DecidableEq, Repr

/-- The currently authenticated user returned by the client's `getMe()`
(not in `src/`). Modelled from the spec: it carries an identifier and its
own follow-channel / unfollow-channel operations, which `User.follow` and
`User.unfollow` invoke with this entity as target. -/
structure Me where
  id : String
  followChannel : UserData → Except ApiError UserFollow
  unfollowChannel : UserData → Except ApiError Unit

/-- Modelled from the spec: the Remote API Client (`TwitchClient` with its
`users`, `channels` and stream resource managers, not in `src/`). Each
operation `User.ts` delegates to is a field, returning a parsed record or
a typed error, exactly the surface listed in spec §6. -/
structure TwitchClient where
  channels_getChannel : UserData → Except ApiError Channel
  users_getSubscriptionData : UserData → String → Except ApiError UserSubscription
  users_getFollowedChannels : UserData → Option Nat → Option Nat →
    Option OrderBy → Option OrderDirection → Except ApiError (List UserFollow)
  users_getFollowedChannel : UserData → String → Except ApiError UserFollow
  users_getMe : Unit → Except ApiError Me
  streams_getStreamByChannel : String → Except ApiError (Option Stream)

/-- The entity facade (`User.ts` lines 28–186): an immutable record
snapshot plus the client reference captured at construction
(constructor, lines 33–35). -/
structure User where
  _data : UserData
  _client : TwitchClient

/-- `get cacheKey()` (`User.ts` lines 38–40). -/
def User.cacheKey (u : User) : String :=
  u._data._id

/-- `get id()` (`User.ts` lines 45–47). -/
def User.id (u : User) : String :=
  u._data._id

/-- `get userName()` (`User.ts` lines 54–56, deprecated). -/
def User.userName (u : User) : String :=
  u._data.name

/-- `get name()` (`User.ts` lines 61–63). -/
def User.name (u : User) : String :=
  u._data.name

/-- `get displayName()` (`User.ts` lines 68–70). -/
def User.displayName (u : User) : String :=
  u._data.display_name

/-- `get logoUrl()` (`User.ts` lines 75–77). -/
def User.logoUrl (u : User) : String :=
  u._data.logo

/-- `getChannel()` (`User.ts` lines 82–84). -/
def User.getChannel (u : User) : Except ApiError Channel :=
  u._client.channels_getChannel u._data

/-- The placeholder entity (`ChannelPlaceholder`, not in `src/`).
Modelled from the spec: it holds only the identifier and the client
reference. -/
structure ChannelPlaceholder where
  _id : String
  _client : TwitchClient

/-- Modelled from the spec: `ChannelPlaceholder.getStream` (not in
`src/`) is the client's stream lookup by identifier, returning the
stream record or none (spec §6). -/
def ChannelPlaceholder.getStream (p : ChannelPlaceholder) :
    Except ApiError (Option Stream) :=
  p._client.streams_getStreamByChannel p._id

/-- `getChannelPlaceholder()` (`User.ts` lines 89–91): constructs a new
`ChannelPlaceholder` from the stored id and client; no client operation
is invoked. -/
def User.getChannelPlaceholder (u : User) : ChannelPlaceholder :=
  ChannelPlaceholder.mk u._data._id u._client

/-- `getStream()` (`User.ts` lines 96–98). -/
def User.getStream (u : User) : Except ApiError (Option Stream) :=
  u.getChannelPlaceholder.getStream

/-- `getSubscriptionTo(channel)` (`User.ts` lines 110–112). -/
def User.getSubscriptionTo (u : User) (channel : String) :
    Except ApiError UserSubscription :=
  u._client.users_getSubscriptionData u._data channel

/-- `isSubscribedTo(channel)` (`User.ts` lines 119–130): `try`/`catch`
around `getSubscriptionTo`; the `instanceof NoSubscriptionProgram` and
`instanceof NotSubscribed` checks become matches on the error tag;
every other caught error is re-thrown. -/
def User.isSubscribedTo (u : User) (channel : String) :
    Except ApiError Bool :=
  match u.getSubscriptionTo channel with
  | Except.ok _ => Except.ok true
  | Except.error ApiError.NoSubscriptionProgram => Except.ok false
  | Except.error ApiError.NotSubscribed => Except.ok false
  | Except.error e => Except.error e

/-- `getFollows(page?, limit?, orderBy?, orderDirection?)`
(`User.ts` lines 140–142). -/
def User.getFollows (u : User) (page limit : Option Nat)
    (orderBy : Option OrderBy) (orderDirection : Option OrderDirection) :
    Except ApiError (List UserFollow) :=
  u._client.users_getFollowedChannels u._data page limit orderBy orderDirection

/-- `getFollowTo(channel)` (`User.ts` lines 149–151). -/
def User.getFollowTo (u : User) (channel : String) :
    Except ApiError UserFollow :=
  u._client.users_getFollowedChannel u._data channel

/-- `follows(channel)` (`User.ts` lines 158–169): `try`/`catch` around
`getFollowTo`; only `instanceof NotFollowing` is converted to `false`;
every other caught error is re-thrown. -/
def User.follows (u : User) (channel : String) : Except ApiError Bool :=
  match u.getFollowTo channel with
  | Except.ok _ => Except.ok true
  | Except.error ApiError.NotFollowing => Except.ok false
  | Except.error e => Except.error e

/-- `follow()` (`User.ts` lines 174–177): `await getMe()`, then the
authenticated user's `followChannel(this)`. -/
def User.follow (u : User) : Except ApiError UserFollow :=
  match u._client.users_getMe () with
  | Except.error e => Except.error e
  | Except.ok currentUser => currentUser.followChannel u._data

/-- `unfollow()` (`User.ts` lines 182–185): `await getMe()`, then the
authenticated user's `unfollowChannel(this)`. -/
def User.unfollow (u : User) : Except ApiError Unit :=
  match u._client.users_getMe () with
  | Except.error e => Except.error e
  | Except.ok currentUser => currentUser.unfollowChannel u._data

/-- One call to a facade method, with its arguments
(`User.ts` lines 38–185): one constructor per public getter or method. -/
inductive UserMethod where
  | cacheKey : UserMethod
  | id : UserMethod
  | userName : UserMethod
  | name : UserMethod
  | displayName : UserMethod
  | logoUrl : UserMethod
  | getChannel : UserMethod
  | getChannelPlaceholder : UserMethod
  | getStream : UserMethod
  | getSubscriptionTo : String → UserMethod
  | isSubscribedTo : String → UserMethod
  | getFollows : Option Nat → Option Nat → Option OrderBy →
      Option OrderDirection → UserMethod
  | getFollowTo : String → UserMethod
  | follows : String → UserMethod
  | follow : UserMethod
  | unfollow : UserMethod
deriving DecidableEq

/-- The facade state after executing one method, read off each method body
in the source: no body assigns to `this._data` or `this._client` (the
constructor at line 33 is the only write, and `_client` is declared
`readonly`), so each case returns the fields exactly as the body leaves
them — unchanged. -/
def runMethod (u : User) : UserMethod → User
  | UserMethod.cacheKey => u
  | UserMethod.id => u
  | UserMethod.userName => u
  | UserMethod.name => u
  | UserMethod.displayName => u
  | UserMethod.logoUrl => u
  | UserMethod.getChannel => u
  | UserMethod.getChannelPlaceholder => u
  | UserMethod.getStream => u
  | UserMethod.getSubscriptionTo _ => u
  | UserMethod.isSubscribedTo _ => u
  | UserMethod.getFollows _ _ _ _ => u
  | UserMethod.getFollowTo _ => u
  | UserMethod.follows _ => u
  | UserMethod.follow => u
  | UserMethod.unfollow => u

/-- The facade state after a whole sequence of method calls. -/
def runMethods (u : User) (ms : List UserMethod) : User :=
  ms.foldl runMethod u

/-! ## Concrete fixtures (used by the witnesses) -/

/-- A concrete backing record, with the identifier from the spec's
scenario (§8). -/
def specUserData : UserData :=
  UserData.mk "44322889" "some bio" "2013-06-03T19:12:02Z" "dallas"
    "dallas" "https://logo.example/dallas.png" "staff" "2017-02-09T16:32:01Z"

/-- A concrete authenticated user whose delegated operations succeed,
with identifier "1" as in the spec's scenario (§8). -/
def testMe : Me :=
  Me.mk "1" (fun _ => Except.ok (UserFollow.mk "follow-record"))
    (fun _ => Except.ok ())

/-- A concrete client: subscription lookup succeeds on "channelY", raises
`NotSubscribed` on "channelX" and a transport error elsewhere; follow
lookup succeeds on "followedChan", raises `NotFollowing` on
"otherChan" and a transport error elsewhere. -/
def testClient : TwitchClient :=
  TwitchClient.mk
    (fun _ => Except.ok (Channel.mk "chan-record"))
    (fun _ ch =>
      if ch = "channelY" then Except.ok (UserSubscription.mk "sub-record")
      else if ch = "channelX" then Except.error ApiError.NotSubscribed
      else Except.error (ApiError.transport "timeout"))
    (fun _ _ _ _ _ => Except.ok [])
    (fun _ ch =>
      if ch = "followedChan" then Except.ok (UserFollow.mk "follow-record")
      else if ch = "otherChan" then Except.error ApiError.NotFollowing
      else Except.error (ApiError.transport "connection reset"))
    (fun _ => Except.ok testMe)
    (fun _ => Except.ok none)

/-- A concrete client on which every remote operation fails with a
transport-level error (in particular `getMe` fails: no authenticated
user). -/
def offlineClient : TwitchClient :=
  TwitchClient.mk
    (fun _ => Except.error (ApiError.transport "down"))
    (fun _ _ => Except.error (ApiError.transport "down"))
    (fun _ _ _ _ _ => Except.error (ApiError.transport "down"))
    (fun _ _ => Except.error (ApiError.transport "down"))
    (fun _ => Except.error (ApiError.transport "no authenticated user"))
    (fun _ => Except.error (ApiError.transport "down"))

/-- A concrete facade over `specUserData` and `testClient`. -/
def testUser : User :=
  User.mk specUserData testClient

/-- The same record over the failing client. -/
def offlineUser : User :=
  User.mk specUserData offlineClient

/-! ## Claims -/

/-- Helper: a single method call leaves the facade state unchanged. -/
theorem runMethod_eq (u : User) (m : UserMethod) : runMethod u m = u := by
  cases m <;> rfl

/-- C1: `isSubscribedTo(channel)` returns `true` when the collaborator's
`getSubscriptionData` call succeeds, `false` when it fails with
`NoSubscriptionProgram` or `NotSubscribed`, and re-raises any other error
kind unchanged — a transport error propagates and never becomes `false`. -/
theorem isSubscribedTo_classification (u : User) (channel : String) :
    (∀ s, u.getSubscriptionTo channel = Except.ok s →
      u.isSubscribedTo channel = Except.ok true) ∧
    (u.getSubscriptionTo channel = Except.error ApiError.NoSubscriptionProgram →
      u.isSubscribedTo channel = Except.ok false) ∧
    (u.getSubscriptionTo channel = Except.error ApiError.NotSubscribed →
      u.isSubscribedTo channel = Except.ok false) ∧
    (∀ e, u.getSubscriptionTo channel = Except.error e →
      e ≠ ApiError.NoSubscriptionProgram → e ≠ ApiError.NotSubscribed →
      u.isSubscribedTo channel = Except.error e) := by
  refine ⟨?_, ?_, ?_, ?_⟩
  · intro s hs
    simp [User.isSubscribedTo, hs]
  · intro h
    simp [User.isSubscribedTo, h]
  · intro h
    simp [User.isSubscribedTo, h]
  · intro e he h1 h2
    cases e with
    | NoSubscriptionProgram => exact absurd rfl h1
    | NotSubscribed => exact absurd rfl h2
    | NotFollowing => simp [User.isSubscribedTo, he]
    | transport m => simp [User.isSubscribedTo, he]

/-- Witness for C1, on concrete inputs: success yields `true`,
`NotSubscribed` yields `false`, and a transport timeout propagates. -/
theorem isSubscribedTo_classification_witness :
    testUser.isSubscribedTo "channelY" = Except.ok true ∧
    testUser.isSubscribedTo "channelX" = Except.ok false ∧
    testUser.isSubscribedTo "channelZ" =
      Except.error (ApiError.transport "timeout") :=
  ⟨(isSubscribedTo_classification testUser "channelY").1
      (UserSubscription.mk "sub-record") rfl,
   (isSubscribedTo_classification testUser "channelX").2.2.1 rfl,
   (isSubscribedTo_classification testUser "channelZ").2.2.2
      (ApiError.transport "timeout") rfl (by decide) (by decide)⟩

/-- C2: `follows(channel)` returns `false` exactly when the collaborator's
`getFollowedChannel` call fails with `NotFollowing`, `true` when it
succeeds, and re-raises any other error kind unchanged. -/
theorem follows_classification (u : User) (channel : String) :
    (∀ f, u.getFollowTo channel = Except.ok f →
      u.follows channel = Except.ok true) ∧
    (u.getFollowTo channel = Except.error ApiError.NotFollowing →
      u.follows channel = Except.ok false) ∧
    (∀ e, u.getFollowTo channel = Except.error e →
      e ≠ ApiError.NotFollowing →
      u.follows channel = Except.error e) ∧
    (u.follows channel = Except.ok false →
      u.getFollowTo channel = Except.error ApiError.NotFollowing) := by
  refine ⟨?_, ?_, ?_, ?_⟩
  · intro f hf
    simp [User.follows, hf]
  · intro h
    simp [User.follows, h]
  · intro e he h1
    cases e with
    | NotFollowing => exact absurd rfl h1
    | NoSubscriptionProgram => simp [User.follows, he]
    | NotSubscribed => simp [User.follows, he]
    | transport m => simp [User.follows, he]
  · intro h
    revert h
    unfold User.follows
    cases hf : u.getFollowTo channel with
    | ok f => intro h; exact absurd h (by simp)
    | error e =>
      cases e with
      | NotFollowing => intro _; rfl
      | NoSubscriptionProgram => intro h; exact absurd h (by simp)
      | NotSubscribed => intro h; exact absurd h (by simp)
      | transport m => intro h; exact absurd h (by simp)

/-- Witness for C2, on concrete inputs: success yields `true`,
`NotFollowing` yields `false`, and a transport error propagates. -/
theorem follows_classification_witness :
    testUser.follows "followedChan" = Except.ok true ∧
    testUser.follows "otherChan" = Except.ok false ∧
    testUser.follows "thirdChan" =
      Except.error (ApiError.transport "connection reset") :=
  ⟨(follows_classification testUser "followedChan").1
      (UserFollow.mk "follow-record") rfl,
   (follows_classification testUser "otherChan").2.1 rfl,
   (follows_classification testUser "thirdChan").2.2.1
      (ApiError.transport "connection reset") rfl (by decide)⟩

/-- C3: each accessor (`id`, `name`, `displayName`, `logoUrl`) returns
exactly the corresponding stored field of the backing record, verbatim. -/
theorem accessors_project_record (u : User) :
    u.id = u._data._id ∧
    u.name = u._data.name ∧
    u.displayName = u._data.display_name ∧
    u.logoUrl = u._data.logo :=
  ⟨rfl, rfl, rfl, rfl⟩

/-- C4: no facade method mutates the backing state — after any sequence
of method calls the instance (in particular the record and the
identifier) is unchanged, so repeated accessor calls yield identical
values. -/
theorem facade_never_mutates (u : User) (ms : List UserMethod) :
    runMethods u ms = u ∧
    (runMethods u ms)._data = u._data ∧
    (runMethods u ms).id = u.id := by
  have h : runMethods u ms = u := by
    induction ms with
    | nil => rfl
    | cons m ms ih =>
      show List.foldl runMethod (runMethod u m) ms = u
      rw [runMethod_eq]
      exact ih
  exact ⟨h, by rw [h], by rw [h]⟩

/-- C5: `getChannelPlaceholder()` applies only the placeholder
constructor — no client operation occurs in its body and it always
produces a value — and the placeholder's identifier and client reference
equal the source entity's. -/
theorem getChannelPlaceholder_spec (u : User) :
    u.getChannelPlaceholder = ChannelPlaceholder.mk u.id u._client ∧
    (u.getChannelPlaceholder)._id = u.id ∧
    (u.getChannelPlaceholder)._client = u._client :=
  ⟨rfl, rfl, rfl⟩

/-- C6: `getStream()` delegates to a freshly constructed placeholder's
stream lookup for this entity's identifier, returning the client's
result — live stream record or "no stream" — as is, and propagating any
error unchanged. -/
theorem getStream_delegates (u : User) :
    u.getStream = (u.getChannelPlaceholder).getStream ∧
    u.getStream = u._client.streams_getStreamByChannel u.id ∧
    (∀ r, u._client.streams_getStreamByChannel u.id = Except.ok r →
      u.getStream = Except.ok r) ∧
    (∀ e, u._client.streams_getStreamByChannel u.id = Except.error e →
      u.getStream = Except.error e) := by
  refine ⟨rfl, rfl, ?_, ?_⟩
  · intro r hr
    show u._client.streams_getStreamByChannel u._data._id = Except.ok r
    exact hr
  · intro e he
    show u._client.streams_getStreamByChannel u._data._id = Except.error e
    exact he

/-- Witness for C6: on the concrete client the lookup resolves with no
live stream, and `getStream` returns exactly that result; on the failing
client the transport error propagates. -/
theorem getStream_delegates_witness :
    testUser.getStream = Except.ok none ∧
    offlineUser.getStream = Except.error (ApiError.transport "down") :=
  ⟨(getStream_delegates testUser).2.2.1 none rfl,
   (getStream_delegates offlineUser).2.2.2 (ApiError.transport "down") rfl⟩

/-- C7: `follow()` and `unfollow()` first resolve the authenticated user
via the client's `getMe()`, then return exactly that user's own
follow-channel (resp. unfollow-channel) operation applied to this
entity's record; if `getMe()` fails, that error is the whole result — it
does not depend on either delegated operation. -/
theorem follow_unfollow_delegate (u : User) :
    (∀ e, u._client.users_getMe () = Except.error e →
      u.follow = Except.error e ∧ u.unfollow = Except.error e) ∧
    (∀ me, u._client.users_getMe () = Except.ok me →
      u.follow = me.followChannel u._data ∧
      u.unfollow = me.unfollowChannel u._data) := by
  constructor
  · intro e he
    constructor
    · simp [User.follow, he]
    · simp [User.unfollow, he]
  · intro me hme
    constructor
    · simp [User.follow, hme]
    · simp [User.unfollow, hme]

/-- Witness for C7: on the concrete client `getMe()` yields the
authenticated user "1" and its operations are invoked with the original
record; on the failing client the `getMe()` error propagates and is the
whole result. -/
theorem follow_unfollow_delegate_witness :
    testUser.follow = testMe.followChannel specUserData ∧
    testUser.unfollow = testMe.unfollowChannel specUserData ∧
    offlineUser.follow =
      Except.error (ApiError.transport "no authenticated user") ∧
    offlineUser.unfollow =
      Except.error (ApiError.transport "no authenticated user") :=
  ⟨((follow_unfollow_delegate testUser).2 testMe rfl).1,
   ((follow_unfollow_delegate testUser).2 testMe rfl).2,
   ((follow_unfollow_delegate offlineUser).1
      (ApiError.transport "no authenticated user") rfl).1,
   ((follow_unfollow_delegate offlineUser).1
      (ApiError.transport "no authenticated user") rfl).2⟩

/-- C8: `getFollows` forwards this entity's record and all four optional
parameters unchanged to the client's follow-listing operation (an
unspecified parameter is forwarded as absent, leaving the collaborator's
default); the `orderBy` type has exactly the values creation time, last
broadcast and login, and `orderDirection` exactly ascending and
descending. -/
theorem getFollows_forwards (u : User) (page limit : Option Nat)
    (orderBy : Option OrderBy) (orderDirection : Option OrderDirection) :
    u.getFollows page limit orderBy orderDirection =
      u._client.users_getFollowedChannels u._data page limit
        orderBy orderDirection ∧
    (∀ ob : OrderBy, ob = OrderBy.created_at ∨
      ob = OrderBy.last_broadcast ∨ ob = OrderBy.login) ∧
    (∀ od : OrderDirection,
      od = OrderDirection.asc ∨ od = OrderDirection.desc) := by
  refine ⟨rfl, ?_, ?_⟩
  · intro ob
    cases ob with
    | created_at => exact Or.inl rfl
    | last_broadcast => exact Or.inr (Or.inl rfl)
    | login => exact Or.inr (Or.inr rfl)
  · intro od
    cases od with
    | asc => exact Or.inl rfl
    | desc => exact Or.inr rfl

/-- C9: the cache key equals the identifier — `cacheKey` and `id` project
the same stored field. -/
theorem cacheKey_eq_id (u : User) :
    u.cacheKey = u.id ∧ u.cacheKey = u._data._id :=
  ⟨rfl, rfl⟩

/-- C10: the deprecated `userName` accessor returns the same value as
`name` — both project the record's login-name field. -/
theorem userName_eq_name (u : User) :
    u.userName = u.name ∧ u.userName = u._data.name :=
  ⟨rfl, rfl⟩

end Twurple
